import Mathlib

/-!
Shallow embedding of the BookSphere password-reset flow
(`server/routes/auth.js`: `POST /api/auth/forgot-password` and
`POST /api/auth/reset-password`), together with proofs of the
specification's claims about it.

User records live in a Mongo collection; we model the collection as a
list of records and `updateOne` as an update of the first matching
record.  Randomness (the 32 random bytes of the reset token, bcrypt's
internal salt) and the environment (email credentials, `NODE_ENV`,
`FRONTEND_URL`) are passed in as explicit parameters.
-/

/-- Modelled from the spec: a bcrypt digest produced by the external
`bcrypt` library (not part of this repository).  The library's contract
is that `bcrypt.hash(secret, rounds)` returns a salted digest and
`bcrypt.compare(candidate, digest)` succeeds exactly when `candidate`
is the secret the digest was computed from; we idealise the digest as a
collision-free pair of the salt and the hashed secret. -/
structure BcryptDigest where
  salt : Nat
  hashedSecret : String
deriving DecidableEq, Repr

/-- Modelled from the spec: `bcrypt.hash(secret, 10)` with the salt the
library drew internally made explicit. -/
def bcryptHash (salt : Nat) (secret : String) : BcryptDigest :=
  ⟨salt, secret⟩

/-- Modelled from the spec: `bcrypt.compare(candidate, digest)` — the
hashing primitive's own (constant-time, salt-recovering) comparison. -/
def bcryptCompare (candidate : String) (digest : BcryptDigest) : Bool :=
  digest.hashedSecret == candidate

/-- A user document in the `users` collection.  Only the fields the
auth routes read or write are modelled; `resetPasswordToken` and
`resetPasswordExpire` are `none` when the fields are absent from the
document. -/
structure UserRecord where
  mongoId : String
  email : String
  passwordHash : Option BcryptDigest
  resetPasswordToken : Option BcryptDigest
  resetPasswordExpire : Option Nat
  updatedAt : Option Nat
deriving DecidableEq, Repr

/-- The `users` collection. -/
abbrev UserStore := List UserRecord

/-- Mongo's `updateOne`: apply `f` to the first record satisfying `p`,
leave everything else unchanged. -/
def updateFirst (p : UserRecord → Bool) (f : UserRecord → UserRecord) :
    UserStore → UserStore
  | [] => []
  | u :: us => if p u then f u :: us else u :: updateFirst p f us

/-- One hex digit of `crypto`'s lowercase hex encoding. -/
def hexDigitChar (n : Nat) : Char :=
  if n < 10 then Char.ofNat (48 + n) else Char.ofNat (87 + n)

/-- Two-character lowercase hex encoding of one byte. -/
def byteToHex (b : Nat) : String :=
  String.mk [hexDigitChar (b / 16), hexDigitChar (b % 16)]

/-- `Buffer.toString("hex")`: lowercase hex encoding of a byte list.
`crypto.randomBytes(32).toString("hex")` is `bytesToHex bs` for the 32
random bytes `bs`. -/
def bytesToHex (bs : List Nat) : String :=
  String.join (bs.map byteToHex)

/-- Is `c` a hexadecimal digit character. -/
def isHexChar (c : Char) : Bool :=
  c.isDigit || (97 ≤ c.toNat && c.toNat ≤ 102) || (65 ≤ c.toNat && c.toNat ≤ 70)

/-- `String.prototype.toLowerCase()` (and the driver's ObjectId
lower-casing), as a character-wise map. -/
def toLowerCase (s : String) : String :=
  String.mk (s.data.map Char.toLower)

/-- Modelled from the spec: well-formedness of a MongoDB `ObjectId`
string — `new ObjectId(s)` (external `mongodb` driver) succeeds exactly
on 24-character hex strings and normalises them to lowercase. -/
def isValidObjectId (s : String) : Bool :=
  s.length == 24 && s.toList.all isHexChar

/-- Modelled from the spec: `new ObjectId(String(id))`, returning
`none` where the driver would throw. -/
def objectIdOfString (s : String) : Option String :=
  if isValidObjectId s then some (toLowerCase s) else none

/-- JavaScript falsiness of an optional request-body string field:
`!x` is true when the field is missing or the empty string. -/
def falsyStr : Option String → Bool
  | none => true
  | some s => s = ""

/-- The regex replace `frontend.replace(/\/$/, "")`: drop one trailing
slash. -/
def stripTrailingSlash (s : String) : String :=
  if s.endsWith "/" then s.dropRight 1 else s

/-- Environment configuration read by the forgot-password handler:
`DEV_EMAIL_RETURN_URL === "true" || NODE_ENV !== "production"` and
`FRONTEND_URL || "http://localhost:3000"`. -/
structure EnvConfig where
  devReturnURL : Bool
  frontendURL : String
deriving DecidableEq, Repr

/-- The delivery environment `sendResetEmail` runs in: whether real
SMTP credentials are configured, and whether the real send and the
Ethereal fallback would succeed. -/
structure MailEnv where
  hasCreds : Bool
  smtpOk : Bool
  etherealOk : Bool
  previewUrl : String
  errMsg : String
deriving DecidableEq, Repr

/-- Result object of `sendResetEmail`. -/
structure SendResult where
  sendSuccess : Bool
  mailSent : Bool
  previewUrl : Option String
  sendError : Option String
deriving DecidableEq, Repr

/-- `sendResetEmail(toEmail, resetURL)`: try real SMTP when credentials
are present, fall back to an Ethereal test account, and report failure
only when both channels fail. -/
def sendResetEmail (menv : MailEnv) : SendResult :=
  if menv.hasCreds && menv.smtpOk then
    ⟨true, true, none, none⟩
  else if menv.etherealOk then
    ⟨true, false, some menv.previewUrl, none⟩
  else
    ⟨false, false, none, some menv.errMsg⟩

/-- Response of the forgot-password handler together with the store it
leaves behind.  `resetURL`, `mailSent`, `previewUrl` and `errorField`
are the optional development-mode response fields. -/
structure ForgotResult where
  store : UserStore
  status : Nat
  success : Bool
  message : String
  resetURL : Option String
  mailSent : Option Bool
  previewUrl : Option String
  errorField : Option String
deriving DecidableEq, Repr

/-- `POST /api/auth/forgot-password`.  `email? = none` models a body
without an `email` field; the empty string is also falsy in
`if (!email)`.  `tokenBytes` are the bytes drawn by
`crypto.randomBytes(32)` and `hashSalt` the salt bcrypt draws; `now`
is `Date.now()`. -/
def forgotPassword (cfg : EnvConfig) (menv : MailEnv) (store : UserStore)
    (email? : Option String) (tokenBytes : List Nat) (hashSalt : Nat)
    (now : Nat) : ForgotResult :=
  if falsyStr email? then
    ⟨store, 400, false, "Email required", none, none, none, none⟩
  else
    let email := email?.getD ""
    let normalizedEmail := toLowerCase email
    match store.find? (fun u => u.email == normalizedEmail) with
      | none =>
        ⟨store, 200, true,
          "If an account with that email exists, a reset email has been sent",
          none, none, none, none⟩
      | some user =>
        let resetToken := bytesToHex tokenBytes
        let hashedToken := bcryptHash hashSalt resetToken
        let expireAt := now + 60 * 60 * 1000
        let store' := updateFirst (fun u => u.mongoId == user.mongoId)
          (fun u => { u with resetPasswordToken := some hashedToken,
                             resetPasswordExpire := some expireAt }) store
        let resetURL := stripTrailingSlash cfg.frontendURL ++
          "/reset-password?token=" ++ resetToken ++ "&id=" ++ user.mongoId
        let sendResult := sendResetEmail menv
        if cfg.devReturnURL then
          ⟨store', 200, true,
            "Password reset (dev): check returned resetURL or email preview.",
            some resetURL, some sendResult.mailSent, sendResult.previewUrl,
            sendResult.sendError⟩
        else
          ⟨store', 200, true,
            "If an account with that email exists, a reset email has been sent",
            none, none, none, none⟩

/-- Response of the reset-password handler together with the store it
leaves behind. -/
structure ResetResult where
  store : UserStore
  status : Nat
  success : Bool
  message : String
deriving DecidableEq, Repr

/-- `POST /api/auth/reset-password`.  `none` models a missing body
field; the empty string is also falsy in `if (!id || !token ||
!password)`.  `pwSalt` is the salt bcrypt draws for the new password
hash; `now` is `Date.now()`. -/
def resetPassword (store : UserStore) (id? token? password? : Option String)
    (pwSalt : Nat) (now : Nat) : ResetResult :=
  if falsyStr id? || falsyStr token? || falsyStr password? then
    ⟨store, 400, false, "id, token and password are required"⟩
  else
    let id := id?.getD ""
    let token := token?.getD ""
    let password := password?.getD ""
    match objectIdOfString id with
    | none => ⟨store, 400, false, "Invalid user id"⟩
    | some userId =>
      match store.find? (fun u => u.mongoId == userId) with
      | none => ⟨store, 404, false, "User not found"⟩
      | some user =>
        let expire := user.resetPasswordExpire.getD 0
        match user.resetPasswordToken with
        | none => ⟨store, 400, false, "Token expired or invalid"⟩
        | some hashedToken =>
          if expire = 0 || now > expire then
            ⟨store, 400, false, "Token expired or invalid"⟩
          else if !(bcryptCompare token hashedToken) then
            ⟨store, 400, false, "Token invalid"⟩
          else
            let newHashed := bcryptHash pwSalt password
            let store' := updateFirst (fun u => u.mongoId == userId)
              (fun u => { u with passwordHash := some newHashed,
                                 updatedAt := some now,
                                 resetPasswordToken := none,
                                 resetPasswordExpire := none }) store
            ⟨store', 200, true, "Password reset successful"⟩

/-- Both token fields are present, or both absent (the spec's §3
invariant). -/
def tokenFieldsConsistent (u : UserRecord) : Bool :=
  u.resetPasswordToken.isSome == u.resetPasswordExpire.isSome

/-- One client-visible operation of the Reset-Token Service. -/
inductive AuthOp where
  | issue (cfg : EnvConfig) (menv : MailEnv) (email? : Option String)
      (tokenBytes : List Nat) (hashSalt : Nat) (now : Nat)
  | redeem (id? token? password? : Option String) (pwSalt : Nat) (now : Nat)

/-- The store left behind by one operation. -/
def applyOp (store : UserStore) : AuthOp → UserStore
  | .issue cfg menv email? tokenBytes hashSalt now =>
    (forgotPassword cfg menv store email? tokenBytes hashSalt now).store
  | .redeem id? token? password? pwSalt now =>
    (resetPassword store id? token? password? pwSalt now).store

/-- The store left behind by a sequence of operations. -/
def runOps (store : UserStore) : List AuthOp → UserStore
  | [] => store
  | op :: ops => runOps (applyOp store op) ops

/-- A demonstration user id: 24 lowercase hex characters, as the
driver stores ObjectIds. -/
def demoId : String := "aaaaaaaaaaaaaaaaaaaaaaaa"

/-- A demonstration record holding an outstanding reset token (the
bcrypt hash of the raw token "tok", expiring at 5000). -/
def demoUser : UserRecord :=
  ⟨demoId, "user@example.com", none, some (bcryptHash 7 "tok"), some 5000, none⟩

/-- A one-record store holding `demoUser`. -/
def demoStore : UserStore := [demoUser]

/-- A demonstration record with no outstanding token fields. -/
def demoUserNoToken : UserRecord :=
  ⟨demoId, "user@example.com", none, none, none, none⟩

/-- A development-mode configuration. -/
def demoCfg : EnvConfig := ⟨true, "http://localhost:3000"⟩

/-- A delivery environment in which both real SMTP and the Ethereal
fallback fail. -/
def demoMailFail : MailEnv := ⟨false, false, false, "", "connect ECONNREFUSED"⟩

theorem updateFirst_all {P : UserRecord → Prop} {p : UserRecord → Bool}
    {f : UserRecord → UserRecord} (hf : ∀ u, P (f u)) :
    ∀ l : UserStore, (∀ u ∈ l, P u) → ∀ u ∈ updateFirst p f l, P u := by
  intro l
  induction l with
  | nil => intro _ u hu; simp [updateFirst] at hu
  | cons v vs ih =>
    intro h u hu
    by_cases hv : p v
    · simp only [updateFirst, hv, if_true, List.mem_cons] at hu
      rcases hu with rfl | hu
      · exact hf v
      · exact h u (List.mem_cons_of_mem v hu)
    · simp only [updateFirst, hv, if_false, Bool.false_eq_true, List.mem_cons] at hu
      rcases hu with rfl | hu
      · exact h _ (List.mem_cons_self _ _)
      · exact ih (fun w hw => h w (List.mem_cons_of_mem v hw)) u hu

theorem updateFirst_find? {p : UserRecord → Bool} {f : UserRecord → UserRecord}
    {l : UserStore} {u : UserRecord} (hu : l.find? p = some u)
    (hf : p (f u) = true) :
    (updateFirst p f l).find? p = some (f u) := by
  induction l with
  | nil => simp at hu
  | cons v vs ih =>
    by_cases hv : p v
    · rw [List.find?_cons_of_pos _ hv] at hu
      injection hu with hu
      subst hu
      simp only [updateFirst, hv, if_true]
      exact List.find?_cons_of_pos _ hf
    · rw [List.find?_cons_of_neg _ hv] at hu
      simp only [updateFirst, hv, if_false, Bool.false_eq_true]
      rw [List.find?_cons_of_neg _ hv]
      exact ih hu

theorem resetPassword_store_or_success (store : UserStore)
    (id? token? password? : Option String) (pwSalt now : Nat) :
    (resetPassword store id? token? password? pwSalt now).store = store ∨
    (resetPassword store id? token? password? pwSalt now).success = true := by
  simp only [resetPassword]
  split
  · exact Or.inl rfl
  · split
    · exact Or.inl rfl
    · split
      · exact Or.inl rfl
      · split
        · exact Or.inl rfl
        · split
          · exact Or.inl rfl
          · split
            · exact Or.inl rfl
            · exact Or.inr rfl

theorem forgotPassword_consistent (cfg : EnvConfig) (menv : MailEnv)
    (store : UserStore) (email? : Option String) (tokenBytes : List Nat)
    (hashSalt now : Nat)
    (h : ∀ u ∈ store, tokenFieldsConsistent u = true) :
    ∀ u ∈ (forgotPassword cfg menv store email? tokenBytes hashSalt now).store,
      tokenFieldsConsistent u = true := by
  simp only [forgotPassword]
  split
  · exact h
  · split
    · exact h
    · split
      · exact updateFirst_all (fun u => by simp [tokenFieldsConsistent]) store h
      · exact updateFirst_all (fun u => by simp [tokenFieldsConsistent]) store h

theorem resetPassword_consistent (store : UserStore)
    (id? token? password? : Option String) (pwSalt now : Nat)
    (h : ∀ u ∈ store, tokenFieldsConsistent u = true) :
    ∀ u ∈ (resetPassword store id? token? password? pwSalt now).store,
      tokenFieldsConsistent u = true := by
  simp only [resetPassword]
  split
  · exact h
  · split
    · exact h
    · split
      · exact h
      · split
        · exact h
        · split
          · exact h
          · split
            · exact h
            · exact updateFirst_all (fun u => by simp [tokenFieldsConsistent]) store h

theorem objectIdOfString_ne_empty {s t : String}
    (h : objectIdOfString s = some t) : s ≠ "" := by
  intro hs
  subst hs
  have hnone : objectIdOfString "" = none := by decide
  rw [hnone] at h
  cases h

theorem resetPassword_success_eq (store : UserStore)
    (uid token password : String) (user : UserRecord) (h : BcryptDigest)
    (e pwSalt now : Nat)
    (hidv : objectIdOfString uid = some uid)
    (hfind : store.find? (fun u => u.mongoId == uid) = some user)
    (htok : user.resetPasswordToken = some h)
    (hexp : user.resetPasswordExpire = some e)
    (he0 : e ≠ 0) (hnow : now ≤ e)
    (hcmp : bcryptCompare token h = true)
    (htk : token ≠ "") (hpw : password ≠ "") :
    resetPassword store (some uid) (some token) (some password) pwSalt now =
      ⟨updateFirst (fun u => u.mongoId == uid)
         (fun u => { u with passwordHash := some (bcryptHash pwSalt password),
                            updatedAt := some now,
                            resetPasswordToken := none,
                            resetPasswordExpire := none }) store,
       200, true, "Password reset successful"⟩ := by
  have huid : uid ≠ "" := objectIdOfString_ne_empty hidv
  have hmiss : (falsyStr (some uid) || falsyStr (some token) ||
      falsyStr (some password)) = false := by
    simp [falsyStr, huid, htk, hpw]
  have hexpire : (decide (e = 0) || decide (now > e)) = false := by
    simp only [Bool.or_eq_false_iff, decide_eq_false_iff_not]
    exact ⟨he0, Nat.not_lt.mpr hnow⟩
  simp only [resetPassword, hmiss, Bool.false_eq_true, if_false,
    Option.getD_some, hidv, hfind, htok, hexp, hexpire, hcmp,
    Bool.not_true]

theorem resetPassword_no_token_eq (store : UserStore)
    (uid token password : String) (user : UserRecord) (pwSalt now : Nat)
    (hidv : objectIdOfString uid = some uid)
    (hfind : store.find? (fun u => u.mongoId == uid) = some user)
    (htok : user.resetPasswordToken = none)
    (htk : token ≠ "") (hpw : password ≠ "") :
    resetPassword store (some uid) (some token) (some password) pwSalt now =
      ⟨store, 400, false, "Token expired or invalid"⟩ := by
  have huid : uid ≠ "" := objectIdOfString_ne_empty hidv
  have hmiss : (falsyStr (some uid) || falsyStr (some token) ||
      falsyStr (some password)) = false := by
    simp [falsyStr, huid, htk, hpw]
  simp only [resetPassword, hmiss, Bool.false_eq_true, if_false,
    Option.getD_some, hidv, hfind, htok]

theorem resetPassword_expired_eq (store : UserStore)
    (uid token password : String) (user : UserRecord) (h : BcryptDigest)
    (e pwSalt now : Nat)
    (hidv : objectIdOfString uid = some uid)
    (hfind : store.find? (fun u => u.mongoId == uid) = some user)
    (htok : user.resetPasswordToken = some h)
    (hexp : user.resetPasswordExpire = some e)
    (hlt : e = 0 ∨ e < now)
    (htk : token ≠ "") (hpw : password ≠ "") :
    resetPassword store (some uid) (some token) (some password) pwSalt now =
      ⟨store, 400, false, "Token expired or invalid"⟩ := by
  have huid : uid ≠ "" := objectIdOfString_ne_empty hidv
  have hmiss : (falsyStr (some uid) || falsyStr (some token) ||
      falsyStr (some password)) = false := by
    simp [falsyStr, huid, htk, hpw]
  have hexpire : (decide (e = 0) || decide (now > e)) = true := by
    rcases hlt with h0 | h1
    · simp [h0]
    · simp [h1]
  simp only [resetPassword, hmiss, Bool.false_eq_true, if_false,
    Option.getD_some, hidv, hfind, htok, hexp, hexpire, if_true]

theorem resetPassword_bad_compare_eq (store : UserStore)
    (uid token password : String) (user : UserRecord) (h : BcryptDigest)
    (e pwSalt now : Nat)
    (hidv : objectIdOfString uid = some uid)
    (hfind : store.find? (fun u => u.mongoId == uid) = some user)
    (htok : user.resetPasswordToken = some h)
    (hexp : user.resetPasswordExpire = some e)
    (he0 : e ≠ 0) (hnow : now ≤ e)
    (hcmp : bcryptCompare token h = false)
    (htk : token ≠ "") (hpw : password ≠ "") :
    resetPassword store (some uid) (some token) (some password) pwSalt now =
      ⟨store, 400, false, "Token invalid"⟩ := by
  have huid : uid ≠ "" := objectIdOfString_ne_empty hidv
  have hmiss : (falsyStr (some uid) || falsyStr (some token) ||
      falsyStr (some password)) = false := by
    simp [falsyStr, huid, htk, hpw]
  have hexpire : (decide (e = 0) || decide (now > e)) = false := by
    simp only [Bool.or_eq_false_iff, decide_eq_false_iff_not]
    exact ⟨he0, Nat.not_lt.mpr hnow⟩
  simp only [resetPassword, hmiss, Bool.false_eq_true, if_false,
    Option.getD_some, hidv, hfind, htok, hexp, hexpire, hcmp,
    Bool.not_false, if_true]

theorem hexDigitChar_hex (n : Nat) (h : n < 16) :
    isHexChar (hexDigitChar n) = true := by
  interval_cases n <;> decide

theorem bytesToHex_length (bs : List Nat) :
    (bytesToHex bs).length = 2 * bs.length := by
  rw [bytesToHex, String.join_eq, String.mk_length, List.length_flatten]
  induction bs with
  | nil => rfl
  | cons b tl ih =>
    simp only [List.map_cons, List.sum_cons, List.length_cons] at *
    rw [ih]
    simp [byteToHex]
    ring

theorem bytesToHex_all_hex (bs : List Nat) (hb : ∀ b ∈ bs, b < 256) :
    ∀ c ∈ (bytesToHex bs).data, isHexChar c = true := by
  rw [bytesToHex, String.join_eq]
  intro c hc
  simp only [List.mem_flatten, List.map_map, List.mem_map,
    Function.comp] at hc
  obtain ⟨l, ⟨b, hbmem, rfl⟩, hcl⟩ := hc
  have hb256 : b < 256 := hb b hbmem
  have hdiv : b / 16 < 16 := Nat.div_lt_of_lt_mul (by omega)
  have hmod : b % 16 < 16 := Nat.mod_lt _ (by omega)
  simp only [byteToHex, List.mem_cons, List.not_mem_nil, or_false] at hcl
  rcases hcl with rfl | rfl
  · exact hexDigitChar_hex _ hdiv
  · exact hexDigitChar_hex _ hmod

theorem forgotPassword_found_eq (cfg : EnvConfig) (menv : MailEnv)
    (store : UserStore) (email : String) (user : UserRecord)
    (tokenBytes : List Nat) (hashSalt now : Nat)
    (hne : email ≠ "")
    (hfind : store.find? (fun u => u.email == toLowerCase email) = some user) :
    forgotPassword cfg menv store (some email) tokenBytes hashSalt now =
      (let resetToken := bytesToHex tokenBytes
       let store' := updateFirst (fun u => u.mongoId == user.mongoId)
         (fun u => { u with
            resetPasswordToken := some (bcryptHash hashSalt resetToken),
            resetPasswordExpire := some (now + 60 * 60 * 1000) }) store
       let resetURL := stripTrailingSlash cfg.frontendURL ++
         "/reset-password?token=" ++ resetToken ++ "&id=" ++ user.mongoId
       let sendResult := sendResetEmail menv
       if cfg.devReturnURL then
         ⟨store', 200, true,
           "Password reset (dev): check returned resetURL or email preview.",
           some resetURL, some sendResult.mailSent, sendResult.previewUrl,
           sendResult.sendError⟩
       else
         ⟨store', 200, true,
           "If an account with that email exists, a reset email has been sent",
           none, none, none, none⟩) := by
  have hf : falsyStr (some email) = false := by simp [falsyStr, hne]
  simp only [forgotPassword, hf, Bool.false_eq_true, if_false,
    Option.getD_some, hfind]

theorem forgotPassword_found_store (cfg : EnvConfig) (menv : MailEnv)
    (store : UserStore) (email : String) (user : UserRecord)
    (tokenBytes : List Nat) (hashSalt now : Nat)
    (hne : email ≠ "")
    (hfind : store.find? (fun u => u.email == toLowerCase email) = some user) :
    (forgotPassword cfg menv store (some email) tokenBytes hashSalt now).store =
      updateFirst (fun u => u.mongoId == user.mongoId)
        (fun u => { u with
           resetPasswordToken :=
             some (bcryptHash hashSalt (bytesToHex tokenBytes)),
           resetPasswordExpire := some (now + 60 * 60 * 1000) }) store := by
  rw [forgotPassword_found_eq cfg menv store email user tokenBytes hashSalt now
    hne hfind]
  by_cases hdev : cfg.devReturnURL <;> simp [hdev]

theorem forgotPassword_found_ok (cfg : EnvConfig) (menv : MailEnv)
    (store : UserStore) (email : String) (user : UserRecord)
    (tokenBytes : List Nat) (hashSalt now : Nat)
    (hne : email ≠ "")
    (hfind : store.find? (fun u => u.email == toLowerCase email) = some user) :
    (forgotPassword cfg menv store (some email) tokenBytes hashSalt now).status
        = 200 ∧
    (forgotPassword cfg menv store (some email) tokenBytes hashSalt now).success
        = true := by
  rw [forgotPassword_found_eq cfg menv store email user tokenBytes hashSalt now
    hne hfind]
  by_cases hdev : cfg.devReturnURL <;> simp [hdev]

theorem forgotPassword_none_eq (cfg : EnvConfig) (menv : MailEnv)
    (store : UserStore) (email : String) (tokenBytes : List Nat)
    (hashSalt now : Nat)
    (hne : email ≠ "")
    (hfind : store.find? (fun u => u.email == toLowerCase email) = none) :
    forgotPassword cfg menv store (some email) tokenBytes hashSalt now =
      ⟨store, 200, true,
        "If an account with that email exists, a reset email has been sent",
        none, none, none, none⟩ := by
  have hf : falsyStr (some email) = false := by simp [falsyStr, hne]
  simp only [forgotPassword, hf, Bool.false_eq_true, if_false,
    Option.getD_some, hfind]

/-- C10: on every failing Redeem path (missing body field, malformed
identifier, unknown user, absent or expired token fields, or hash
mismatch) the store is left completely unchanged; only the single
success path mutates it. -/
theorem C10_failed_redeem_leaves_store_unchanged (store : UserStore)
    (id? token? password? : Option String) (pwSalt now : Nat)
    (hfail : (resetPassword store id? token? password? pwSalt now).success
      = false) :
    (resetPassword store id? token? password? pwSalt now).store = store := by
  rcases resetPassword_store_or_success store id? token? password? pwSalt now
    with hs | hs
  · exact hs
  · rw [hs] at hfail
    cases hfail

/-- Witness for C10: a Redeem with a malformed id fails and leaves the
(empty) store unchanged. -/
theorem C10_failed_redeem_leaves_store_unchanged_witness :
    (resetPassword [] (some "xyz") (some "tok") (some "pw") 0 0).success
        = false ∧
    (resetPassword [] (some "xyz") (some "tok") (some "pw") 0 0).store = [] :=
  ⟨by decide,
   C10_failed_redeem_leaves_store_unchanged [] (some "xyz") (some "tok")
     (some "pw") 0 0 (by decide)⟩

/-- C5: across every sequence of Issue and Redeem operations, every
record keeps `resetPasswordToken` and `resetPasswordExpire` both
present or both absent — each write sets or clears them together. -/
theorem C5_token_fields_set_and_cleared_together (store : UserStore)
    (ops : List AuthOp)
    (hinit : ∀ u ∈ store, tokenFieldsConsistent u = true) :
    ∀ u ∈ runOps store ops, tokenFieldsConsistent u = true := by
  induction ops generalizing store with
  | nil => exact hinit
  | cons op ops ih =>
    refine ih (applyOp store op) ?_
    cases op with
    | issue cfg menv email? tokenBytes hashSalt now =>
      exact forgotPassword_consistent cfg menv store email? tokenBytes
        hashSalt now hinit
    | redeem id? token? password? pwSalt now =>
      exact resetPassword_consistent store id? token? password? pwSalt now
        hinit

/-- Witness for C5: a concrete Issue followed by a Redeem keeps the
two token fields consistent in every record. -/
theorem C5_token_fields_set_and_cleared_together_witness :
    (∀ u ∈ ([demoUserNoToken] : UserStore), tokenFieldsConsistent u = true) ∧
    ∀ u ∈ runOps [demoUserNoToken]
        [AuthOp.issue demoCfg demoMailFail (some "user@example.com") [1, 2] 3 4,
         AuthOp.redeem (some demoId) (some "0102") (some "newpass123") 5 6],
      tokenFieldsConsistent u = true :=
  ⟨by decide,
   C5_token_fields_set_and_cleared_together [demoUserNoToken]
     [AuthOp.issue demoCfg demoMailFail (some "user@example.com") [1, 2] 3 4,
      AuthOp.redeem (some demoId) (some "0102") (some "newpass123") 5 6]
     (by decide)⟩

/-- Counterexample to C1 as stated: after a successful Redeem clears
the token fields, a second Redeem with the same raw token fails with
message "Token expired or invalid" (the absent-fields branch), not with
message "Token invalid". -/
theorem C1_counterexample :
    (resetPassword demoStore (some demoId) (some "tok") (some "newpass123")
        3 100).success = true ∧
    (resetPassword
        ((resetPassword demoStore (some demoId) (some "tok")
          (some "newpass123") 3 100).store)
        (some demoId) (some "tok") (some "newpass123") 4 200).success
        = false ∧
    (resetPassword
        ((resetPassword demoStore (some demoId) (some "tok")
          (some "newpass123") 3 100).store)
        (some demoId) (some "tok") (some "newpass123") 4 200).message
        = "Token expired or invalid" ∧
    (resetPassword
        ((resetPassword demoStore (some demoId) (some "tok")
          (some "newpass123") 3 100).store)
        (some demoId) (some "tok") (some "newpass123") 4 200).message
        ≠ "Token invalid" := by
  refine ⟨by decide, by decide, by decide, by decide⟩

/-- Counterexample to C2 as stated: with the stored expiry equal to
the current time (both 5000) and the correct raw token, Redeem
succeeds — a token whose expiry equals the current instant is still
redeemable, because the code checks `Date.now() > expire` strictly. -/
theorem C2_counterexample :
    demoUser.resetPasswordExpire = some 5000 ∧
    (resetPassword demoStore (some demoId) (some "tok") (some "newpass123")
        3 5000).success = true ∧
    (resetPassword demoStore (some demoId) (some "tok") (some "newpass123")
        3 5000).status = 200 := by
  refine ⟨by decide, by decide, by decide⟩

/-- Counterexample to C4 as stated: the empty-string email matches no
record in the empty store, yet forgot-password answers 400 with
success false ("Email required") instead of a generic success
acknowledgment. -/
theorem C4_counterexample :
    ([] : UserStore).find? (fun u => u.email == toLowerCase "") = none ∧
    (forgotPassword demoCfg demoMailFail [] (some "") [] 0 0).success
        = false ∧
    (forgotPassword demoCfg demoMailFail [] (some "") [] 0 0).status
        = 400 := by
  refine ⟨by decide, by decide, by decide⟩

/-- Counterexample to C6 as stated: a Redeem whose identifier "xyz" is
not a well-formed ObjectId fails with HTTP 400 "Invalid user id", not
with NotFound 404. -/
theorem C6_counterexample :
    (resetPassword demoStore (some "xyz") (some "tok") (some "pw") 0 0).status
        = 400 ∧
    (resetPassword demoStore (some "xyz") (some "tok") (some "pw") 0 0).status
        ≠ 404 ∧
    (resetPassword demoStore (some "xyz") (some "tok") (some "pw") 0 0).message
        = "Invalid user id" := by
  refine ⟨by decide, by decide, by decide⟩

/-- Counterexample to C7 as stated: a forgot-password request whose
body has no email field gets HTTP 400 with success false, so the
endpoint does return an error status to the caller. -/
theorem C7_counterexample :
    (forgotPassword demoCfg demoMailFail demoStore none [] 0 0).status
        = 400 ∧
    (forgotPassword demoCfg demoMailFail demoStore none [] 0 0).success
        = false := by
  refine ⟨by decide, by decide⟩

/-- C1 (amended): with an outstanding unexpired token, Redeem with the
correct raw token succeeds and clears both token fields, and a
subsequent Redeem on that record with the same token fails with 400
and message "Token expired or invalid" (the cleared-fields branch) —
so a raw token is redeemable at most once, but the second failure's
message is not "Token invalid". -/
theorem C1_token_redeemable_at_most_once (store : UserStore)
    (uid raw password password2 : String) (user : UserRecord)
    (tsalt e pwSalt pwSalt2 now now2 : Nat)
    (hidv : objectIdOfString uid = some uid)
    (hfind : store.find? (fun u => u.mongoId == uid) = some user)
    (htok : user.resetPasswordToken = some (bcryptHash tsalt raw))
    (hexp : user.resetPasswordExpire = some e)
    (he0 : e ≠ 0) (hnow : now ≤ e)
    (hraw : raw ≠ "") (hpw : password ≠ "") (hpw2 : password2 ≠ "") :
    (resetPassword store (some uid) (some raw) (some password) pwSalt
        now).success = true ∧
    ((resetPassword store (some uid) (some raw) (some password) pwSalt
        now).store.find? (fun u => u.mongoId == uid) =
      some { user with passwordHash := some (bcryptHash pwSalt password),
                       updatedAt := some now,
                       resetPasswordToken := none,
                       resetPasswordExpire := none }) ∧
    (resetPassword
        (resetPassword store (some uid) (some raw) (some password) pwSalt
          now).store
        (some uid) (some raw) (some password2) pwSalt2 now2 =
      ⟨(resetPassword store (some uid) (some raw) (some password) pwSalt
          now).store,
        400, false, "Token expired or invalid"⟩) := by
  have hcmp : bcryptCompare raw (bcryptHash tsalt raw) = true := by
    simp [bcryptCompare, bcryptHash]
  have h1 := resetPassword_success_eq store uid raw password user
    (bcryptHash tsalt raw) e pwSalt now hidv hfind htok hexp he0 hnow hcmp
    hraw hpw
  have hp := List.find?_some hfind
  have hfind1 := updateFirst_find? (f := fun u =>
      { u with passwordHash := some (bcryptHash pwSalt password),
               updatedAt := some now,
               resetPasswordToken := none,
               resetPasswordExpire := none }) hfind hp
  refine ⟨by rw [h1], ?_, ?_⟩
  · rw [h1]
    exact hfind1
  · rw [h1]
    exact resetPassword_no_token_eq _ uid raw password2 _ pwSalt2 now2 hidv
      hfind1 rfl hraw hpw2

/-- Witness for C1 (amended), on the demonstration store: redeem of
the raw token "tok" succeeds and clears the fields; the repeat redeem
fails with "Token expired or invalid". -/
theorem C1_token_redeemable_at_most_once_witness :
    (resetPassword demoStore (some demoId) (some "tok") (some "newpass123")
        3 100).success = true ∧
    ((resetPassword demoStore (some demoId) (some "tok") (some "newpass123")
        3 100).store.find? (fun u => u.mongoId == demoId) =
      some { demoUser with
        passwordHash := some (bcryptHash 3 "newpass123"),
        updatedAt := some 100,
        resetPasswordToken := none,
        resetPasswordExpire := none }) ∧
    (resetPassword
        (resetPassword demoStore (some demoId) (some "tok")
          (some "newpass123") 3 100).store
        (some demoId) (some "tok") (some "other456") 4 200 =
      ⟨(resetPassword demoStore (some demoId) (some "tok")
          (some "newpass123") 3 100).store,
        400, false, "Token expired or invalid"⟩) :=
  C1_token_redeemable_at_most_once demoStore demoId "tok" "newpass123"
    "other456" demoUser 7 5000 3 4 100 200 (by decide) (by decide)
    (by decide) (by decide) (by decide) (by decide) (by decide) (by decide)
    (by decide)

/-- C2 (amended): with outstanding token fields, Redeem fails with the
400 "Token expired or invalid" response whenever the stored expiry is
strictly before the current time; because the code tests
`Date.now() > expire` strictly, a token whose expiry equals the current
instant is not yet expired. -/
theorem C2_expired_token_rejected (store : UserStore)
    (uid token password : String) (user : UserRecord) (h : BcryptDigest)
    (e pwSalt now : Nat)
    (hidv : objectIdOfString uid = some uid)
    (hfind : store.find? (fun u => u.mongoId == uid) = some user)
    (htok : user.resetPasswordToken = some h)
    (hexp : user.resetPasswordExpire = some e)
    (hlt : e < now)
    (htk : token ≠ "") (hpw : password ≠ "") :
    resetPassword store (some uid) (some token) (some password) pwSalt now =
      ⟨store, 400, false, "Token expired or invalid"⟩ :=
  resetPassword_expired_eq store uid token password user h e pwSalt now hidv
    hfind htok hexp (Or.inr hlt) htk hpw

/-- Witness for C2 (amended): on the demonstration store (expiry 5000),
a redeem at time 6000 with the correct token fails as expired. -/
theorem C2_expired_token_rejected_witness :
    resetPassword demoStore (some demoId) (some "tok") (some "newpass123")
        3 6000 =
      ⟨demoStore, 400, false, "Token expired or invalid"⟩ :=
  C2_expired_token_rejected demoStore demoId "tok" "newpass123" demoUser
    (bcryptHash 7 "tok") 5000 3 6000 (by decide) (by decide) (by decide)
    (by decide) (by decide) (by decide) (by decide)

/-- C3: Issue for a matching (case-normalised) email turns the 32
random bytes into a 64-hex-character raw token (256 bits), stores only
its bcrypt hash together with an expiry of now + 3600000 ms on that
record — overwriting any previously outstanding token fields and
leaving every other field and record unchanged — and the raw token
itself is never written to the store. -/
theorem C3_issue_stores_salted_hash_and_expiry (cfg : EnvConfig)
    (menv : MailEnv) (store : UserStore) (email : String)
    (user : UserRecord) (tokenBytes : List Nat) (hashSalt now : Nat)
    (hne : email ≠ "")
    (hfind : store.find? (fun u => u.email == toLowerCase email) = some user)
    (hfindid : store.find? (fun u => u.mongoId == user.mongoId) = some user)
    (hlen : tokenBytes.length = 32)
    (hbytes : ∀ b ∈ tokenBytes, b < 256) :
    (bytesToHex tokenBytes).length = 64 ∧
    (∀ c ∈ (bytesToHex tokenBytes).data, isHexChar c = true) ∧
    (forgotPassword cfg menv store (some email) tokenBytes hashSalt
        now).store =
      updateFirst (fun u => u.mongoId == user.mongoId)
        (fun u => { u with
           resetPasswordToken :=
             some (bcryptHash hashSalt (bytesToHex tokenBytes)),
           resetPasswordExpire := some (now + 3600000) }) store ∧
    (forgotPassword cfg menv store (some email) tokenBytes hashSalt
        now).store.find? (fun u => u.mongoId == user.mongoId) =
      some { user with
        resetPasswordToken :=
          some (bcryptHash hashSalt (bytesToHex tokenBytes)),
        resetPasswordExpire := some (now + 3600000) } := by
  have h3600 : (60 * 60 * 1000 : Nat) = 3600000 := by norm_num
  have hstore := forgotPassword_found_store cfg menv store email user
    tokenBytes hashSalt now hne hfind
  rw [h3600] at hstore
  have hp := List.find?_some hfindid
  refine ⟨?_, bytesToHex_all_hex tokenBytes hbytes, hstore, ?_⟩
  · rw [bytesToHex_length, hlen]
  · rw [hstore]
    exact updateFirst_find? (f := fun u => { u with
      resetPasswordToken := some (bcryptHash hashSalt (bytesToHex tokenBytes)),
      resetPasswordExpire := some (now + 3600000) }) hfindid hp

/-- Witness for C3: a concrete Issue for the demonstration user stores
the hash of the 64-character token and the one-hour expiry. -/
theorem C3_issue_stores_salted_hash_and_expiry_witness :
    (bytesToHex (List.replicate 32 171)).length = 64 ∧
    (∀ c ∈ (bytesToHex (List.replicate 32 171)).data, isHexChar c = true) ∧
    (forgotPassword demoCfg demoMailFail [demoUserNoToken]
        (some "USER@example.com") (List.replicate 32 171) 9 50).store =
      updateFirst (fun u => u.mongoId == demoUserNoToken.mongoId)
        (fun u => { u with
           resetPasswordToken :=
             some (bcryptHash 9 (bytesToHex (List.replicate 32 171))),
           resetPasswordExpire := some (50 + 3600000) }) [demoUserNoToken] ∧
    (forgotPassword demoCfg demoMailFail [demoUserNoToken]
        (some "USER@example.com") (List.replicate 32 171) 9
        50).store.find? (fun u => u.mongoId == demoUserNoToken.mongoId) =
      some { demoUserNoToken with
        resetPasswordToken :=
          some (bcryptHash 9 (bytesToHex (List.replicate 32 171))),
        resetPasswordExpire := some (50 + 3600000) } :=
  C3_issue_stores_salted_hash_and_expiry demoCfg demoMailFail
    [demoUserNoToken] "USER@example.com" demoUserNoToken
    (List.replicate 32 171) 9 50 (by decide) (by decide) (by decide)
    (by decide) (by decide)

/-- C4 (amended): for every request whose email field is a nonempty
string matching no user record, forgot-password returns the generic
200 success acknowledgment and leaves the store unchanged. -/
theorem C4_unknown_email_generic_success (cfg : EnvConfig) (menv : MailEnv)
    (store : UserStore) (email : String) (tokenBytes : List Nat)
    (hashSalt now : Nat) (hne : email ≠ "")
    (hfind : store.find? (fun u => u.email == toLowerCase email) = none) :
    forgotPassword cfg menv store (some email) tokenBytes hashSalt now =
      ⟨store, 200, true,
        "If an account with that email exists, a reset email has been sent",
        none, none, none, none⟩ :=
  forgotPassword_none_eq cfg menv store email tokenBytes hashSalt now hne
    hfind

/-- Witness for C4 (amended): Issue for ghost@example.com against the
demonstration store answers the generic success and changes nothing. -/
theorem C4_unknown_email_generic_success_witness :
    forgotPassword demoCfg demoMailFail demoStore
        (some "ghost@example.com") [] 0 0 =
      ⟨demoStore, 200, true,
        "If an account with that email exists, a reset email has been sent",
        none, none, none, none⟩ :=
  C4_unknown_email_generic_success demoCfg demoMailFail demoStore
    "ghost@example.com" [] 0 0 (by decide) (by decide)

/-- C6 (amended): a Redeem whose identifier is not a well-formed
ObjectId fails with 400 "Invalid user id" (a ValidationError, not
NotFound); a Redeem whose well-formed identifier matches no record
fails with NotFound 404 "User not found". -/
theorem C6_malformed_id_400_unknown_id_404 (store : UserStore)
    (id token password : String) (pwSalt now : Nat)
    (hid : id ≠ "") (htk : token ≠ "") (hpw : password ≠ "") :
    (objectIdOfString id = none →
      resetPassword store (some id) (some token) (some password) pwSalt now =
        ⟨store, 400, false, "Invalid user id"⟩) ∧
    (∀ userId, objectIdOfString id = some userId →
      store.find? (fun u => u.mongoId == userId) = none →
      resetPassword store (some id) (some token) (some password) pwSalt now =
        ⟨store, 404, false, "User not found"⟩) := by
  have hmiss : (falsyStr (some id) || falsyStr (some token) ||
      falsyStr (some password)) = false := by
    simp [falsyStr, hid, htk, hpw]
  constructor
  · intro hnone
    simp only [resetPassword, hmiss, Bool.false_eq_true, if_false,
      Option.getD_some, hnone]
  · intro userId hsome hfind
    simp only [resetPassword, hmiss, Bool.false_eq_true, if_false,
      Option.getD_some, hsome, hfind]

/-- Witness for C6 (amended): the malformed id "xyz" gets 400 "Invalid
user id"; the well-formed but unknown demonstration id gets 404 "User
not found" on the empty store. -/
theorem C6_malformed_id_400_unknown_id_404_witness :
    (resetPassword [] (some "xyz") (some "tok") (some "pw") 0 0 =
      ⟨[], 400, false, "Invalid user id"⟩) ∧
    (resetPassword [] (some demoId) (some "tok") (some "pw") 0 0 =
      ⟨[], 404, false, "User not found"⟩) :=
  ⟨(C6_malformed_id_400_unknown_id_404 [] "xyz" "tok" "pw" 0 0 (by decide)
      (by decide) (by decide)).1 (by decide),
   (C6_malformed_id_400_unknown_id_404 [] demoId "tok" "pw" 0 0 (by decide)
      (by decide) (by decide)).2 demoId (by decide) (by decide)⟩

/-- C7 (amended): every forgot-password request whose email field is a
nonempty string is answered 200 with success true — whatever the
store, configuration and delivery environment; only a missing or empty
email field is answered 400. -/
theorem C7_nonempty_email_always_success (cfg : EnvConfig) (menv : MailEnv)
    (store : UserStore) (email : String) (tokenBytes : List Nat)
    (hashSalt now : Nat) (hne : email ≠ "") :
    (forgotPassword cfg menv store (some email) tokenBytes hashSalt
        now).status = 200 ∧
    (forgotPassword cfg menv store (some email) tokenBytes hashSalt
        now).success = true := by
  cases hfind : store.find? (fun u => u.email == toLowerCase email) with
  | none =>
    rw [forgotPassword_none_eq cfg menv store email tokenBytes hashSalt now
      hne hfind]
    exact ⟨rfl, rfl⟩
  | some user =>
    exact forgotPassword_found_ok cfg menv store email user tokenBytes
      hashSalt now hne hfind

/-- Witness for C7 (amended): a request for the demonstration user's
email succeeds with 200 even when delivery fails everywhere. -/
theorem C7_nonempty_email_always_success_witness :
    (forgotPassword demoCfg demoMailFail demoStore
        (some "user@example.com") [] 0 0).status = 200 ∧
    (forgotPassword demoCfg demoMailFail demoStore
        (some "user@example.com") [] 0 0).success = true :=
  C7_nonempty_email_always_success demoCfg demoMailFail demoStore
    "user@example.com" [] 0 0 (by decide)

/-- C8: for an existing user, Issue acknowledges success (200) for
every delivery environment — including one where real SMTP and the
Ethereal fallback both fail — and the store it writes (the record with
hash and expiry set) is the same whatever the delivery outcome, i.e.
the token fields are stored independently of (and before) delivery. -/
theorem C8_ack_independent_of_delivery (cfg : EnvConfig)
    (store : UserStore) (email : String) (user : UserRecord)
    (tokenBytes : List Nat) (hashSalt now : Nat)
    (hne : email ≠ "")
    (hfind : store.find? (fun u => u.email == toLowerCase email) = some user) :
    (∀ menv, (forgotPassword cfg menv store (some email) tokenBytes hashSalt
        now).success = true ∧
      (forgotPassword cfg menv store (some email) tokenBytes hashSalt
        now).status = 200) ∧
    (∀ menv, (sendResetEmail menv).sendSuccess = false →
      (forgotPassword cfg menv store (some email) tokenBytes hashSalt
        now).success = true) ∧
    (∀ menv₁ menv₂,
      (forgotPassword cfg menv₁ store (some email) tokenBytes hashSalt
        now).store =
      (forgotPassword cfg menv₂ store (some email) tokenBytes hashSalt
        now).store) := by
  refine ⟨?_, ?_, ?_⟩
  · intro menv
    have h := forgotPassword_found_ok cfg menv store email user tokenBytes
      hashSalt now hne hfind
    exact ⟨h.2, h.1⟩
  · intro menv _
    exact (forgotPassword_found_ok cfg menv store email user tokenBytes
      hashSalt now hne hfind).2
  · intro menv₁ menv₂
    rw [forgotPassword_found_store cfg menv₁ store email user tokenBytes
      hashSalt now hne hfind,
      forgotPassword_found_store cfg menv₂ store email user tokenBytes
      hashSalt now hne hfind]

/-- Witness for C8: with total delivery failure the demonstration
Issue still answers success, and leaves the same store as an Issue
whose delivery succeeds. -/
theorem C8_ack_independent_of_delivery_witness :
    (sendResetEmail demoMailFail).sendSuccess = false ∧
    (forgotPassword demoCfg demoMailFail demoStore
        (some "user@example.com") [1, 2] 3 4).success = true ∧
    (forgotPassword demoCfg demoMailFail demoStore
        (some "user@example.com") [1, 2] 3 4).status = 200 ∧
    (forgotPassword demoCfg demoMailFail demoStore
        (some "user@example.com") [1, 2] 3 4).store =
    (forgotPassword demoCfg ⟨true, true, true, "preview", ""⟩ demoStore
        (some "user@example.com") [1, 2] 3 4).store :=
  ⟨by decide,
   ((C8_ack_independent_of_delivery demoCfg demoStore "user@example.com"
      demoUser [1, 2] 3 4 (by decide) (by decide)).1 demoMailFail).1,
   ((C8_ack_independent_of_delivery demoCfg demoStore "user@example.com"
      demoUser [1, 2] 3 4 (by decide) (by decide)).1 demoMailFail).2,
   (C8_ack_independent_of_delivery demoCfg demoStore "user@example.com"
      demoUser [1, 2] 3 4 (by decide) (by decide)).2.2 demoMailFail
      ⟨true, true, true, "preview", ""⟩⟩

/-- C9: on a record with an outstanding unexpired token, Redeem
decides token validity exactly by the bcrypt compare of the supplied
raw token against the stored digest: it fails with 400 "Token invalid"
precisely when that comparison fails, and its whole outcome depends on
the supplied token only through that comparison — never through direct
equality with a stored secret. -/
theorem C9_bcrypt_compare_decides_redeem (store : UserStore)
    (uid token password : String) (user : UserRecord) (h : BcryptDigest)
    (e pwSalt now : Nat)
    (hidv : objectIdOfString uid = some uid)
    (hfind : store.find? (fun u => u.mongoId == uid) = some user)
    (htok : user.resetPasswordToken = some h)
    (hexp : user.resetPasswordExpire = some e)
    (he0 : e ≠ 0) (hnow : now ≤ e)
    (htk : token ≠ "") (hpw : password ≠ "") :
    (resetPassword store (some uid) (some token) (some password) pwSalt now =
        ⟨store, 400, false, "Token invalid"⟩ ↔
      bcryptCompare token h = false) ∧
    (∀ t₁ t₂ : String, t₁ ≠ "" → t₂ ≠ "" →
      bcryptCompare t₁ h = bcryptCompare t₂ h →
      resetPassword store (some uid) (some t₁) (some password) pwSalt now =
      resetPassword store (some uid) (some t₂) (some password) pwSalt now) := by
  constructor
  · constructor
    · intro heq
      cases hc : bcryptCompare token h with
      | false => rfl
      | true =>
        rw [resetPassword_success_eq store uid token password user h e pwSalt
          now hidv hfind htok hexp he0 hnow hc htk hpw] at heq
        simp at heq
    · intro hcmp
      exact resetPassword_bad_compare_eq store uid token password user h e
        pwSalt now hidv hfind htok hexp he0 hnow hcmp htk hpw
  · intro t₁ t₂ h₁ h₂ hcc
    cases hc : bcryptCompare t₂ h with
    | true =>
      rw [resetPassword_success_eq store uid t₁ password user h e pwSalt now
          hidv hfind htok hexp he0 hnow (hcc.trans hc) h₁ hpw,
        resetPassword_success_eq store uid t₂ password user h e pwSalt now
          hidv hfind htok hexp he0 hnow hc h₂ hpw]
    | false =>
      rw [resetPassword_bad_compare_eq store uid t₁ password user h e pwSalt
          now hidv hfind htok hexp he0 hnow (hcc.trans hc) h₁ hpw,
        resetPassword_bad_compare_eq store uid t₂ password user h e pwSalt
          now hidv hfind htok hexp he0 hnow hc h₂ hpw]

/-- Witness for C9: on the demonstration store, a wrong raw token is
rejected as "Token invalid", and two raw tokens with the same compare
outcome produce identical results. -/
theorem C9_bcrypt_compare_decides_redeem_witness :
    (resetPassword demoStore (some demoId) (some "nope") (some "pw") 3 100 =
      ⟨demoStore, 400, false, "Token invalid"⟩) ∧
    resetPassword demoStore (some demoId) (some "wrong1") (some "pw") 3 100 =
    resetPassword demoStore (some demoId) (some "wrong2") (some "pw") 3 100 :=
  ⟨(C9_bcrypt_compare_decides_redeem demoStore demoId "nope" "pw" demoUser
      (bcryptHash 7 "tok") 5000 3 100 (by decide) (by decide) (by decide)
      (by decide) (by decide) (by decide) (by decide) (by decide)).1.mpr
      (by decide),
   (C9_bcrypt_compare_decides_redeem demoStore demoId "nope" "pw" demoUser
      (bcryptHash 7 "tok") 5000 3 100 (by decide) (by decide) (by decide)
      (by decide) (by decide) (by decide) (by decide) (by decide)).2
      "wrong1" "wrong2" (by decide) (by decide) (by decide)⟩
